import Mathlib

/-!
Verification development for the bsuite-tsobs repository: a shallow
embedding in Lean 4 of the actor-critic agent control loop
(src/bsuite/baselines/jax/actor_critic/agent.py), the experiment driver
(src/bsuite/baselines/jax/actor_critic/run.py) and the wandb metrics
logger (src/bsuite/logging/wandb_logging.py), together with theorems
settling the specification claims about them.

External numerical collaborators (the network forward/init functions,
the rlax td_lambda and policy_gradient_loss primitives, the optimizer,
and the categorical sampler) are kept as explicit function parameters,
exactly as the specification designates them external contracts.
-/

namespace BsuiteTsobs

/-- A single (flattened) observation: a vector of rationals. -/
abbrev Obs := List ℚ

/-- Action logits for one timestep. -/
abbrev Logits := List ℚ

/-- Network parameters, carried externally (opaque to the glue code;
modelled as a rational vector so that instances are concrete). -/
abbrev Params := List ℚ

/-- Optimizer internal state (external contract; concrete vector model). -/
abbrev OptState := List ℚ

/-- Embeds dm_env.StepType: FIRST / MID / LAST. -/
inductive StepType where
  | FIRST
  | MID
  | LAST
deriving DecidableEq, Repr

/-- Embeds dm_env.TimeStep: observation, reward, discount and step type. -/
structure TimeStep where
  stepType : StepType
  reward : ℚ
  discount : ℚ
  observation : Obs
deriving DecidableEq, Repr

/-- Embeds dm_env.TimeStep.last(): true exactly on a terminal step. -/
def TimeStep.isLast (t : TimeStep) : Bool :=
  t.stepType = StepType.LAST

/-- Embeds TrainingState from agent.py: the pair (params, opt_state). -/
structure TrainingState where
  params : Params
  opt_state : OptState
deriving DecidableEq, Repr

/-- Embeds sequence.Trajectory: parallel arrays drained from the buffer. -/
structure Trajectory where
  observations : List Obs
  actions : List ℕ
  rewards : List ℚ
  discounts : List ℚ
deriving DecidableEq, Repr

/-- Modelled from the spec: the trajectory Buffer of
bsuite.baselines.utils.sequence, whose source file is not part of this
repository snapshot (only its caller agent.py is).  Per spec sections 3
and 4.1: fixed declared capacity, a write cursor into per-step arrays
for actions/rewards/discounts plus successor observations, and the
segment-start observation carried over from the previous segment. -/
structure Buffer where
  capacity : ℕ
  firstObs : Obs
  succObs : List Obs
  actions : List ℕ
  rewards : List ℚ
  discounts : List ℚ
deriving DecidableEq, Repr

/-- The buffer's write cursor: number of transitions recorded. -/
def Buffer.cursor (b : Buffer) : ℕ := b.actions.length

/-- Well-formedness: the parallel per-step arrays have equal lengths. -/
def Buffer.WF (b : Buffer) : Prop :=
  b.succObs.length = b.actions.length ∧
  b.rewards.length = b.actions.length ∧
  b.discounts.length = b.actions.length

instance (b : Buffer) : Decidable b.WF := by
  unfold Buffer.WF; infer_instance

/-- Modelled from the spec: Buffer.append records one transition at the
cursor (the segment-start observation is taken from the previous
timestep when the segment is empty) and advances the cursor by one. -/
def Buffer.append (b : Buffer) (timestep : TimeStep) (action : ℕ)
    (new_timestep : TimeStep) : Buffer :=
  { b with
    firstObs := if b.cursor = 0 then timestep.observation else b.firstObs
    succObs := b.succObs ++ [new_timestep.observation]
    actions := b.actions ++ [action]
    rewards := b.rewards ++ [new_timestep.reward]
    discounts := b.discounts ++ [new_timestep.discount] }

/-- Modelled from the spec: Buffer.full() is true when the cursor has
reached the declared capacity. -/
def Buffer.full (b : Buffer) : Bool :=
  b.cursor = b.capacity

/-- Modelled from the spec: Buffer.drain() returns the accumulated
Trajectory (observations sized cursor+1, the per-step arrays sized
cursor), resets the cursor to zero and carries the most recent
observation forward as the first observation of the next segment. -/
def Buffer.drain (b : Buffer) : Trajectory × Buffer :=
  (⟨b.firstObs :: b.succObs, b.actions, b.rewards, b.discounts⟩,
   { b with
     firstObs := b.succObs.getLastD b.firstObs
     succObs := []
     actions := []
     rewards := []
     discounts := [] })

/-- The ActorCritic agent's mutable state: Training State, trajectory
buffer and the stateful pseudo-random sequence. -/
structure Agent where
  state : TrainingState
  buffer : Buffer
  rng_seed : ℕ
  rng_counter : ℕ
deriving DecidableEq, Repr

/-- Modelled from the spec: hk.PRNGSequence as a counter-based random
sequence; drawing the next key advances the counter by one (spec design
note on the stateful pseudo-random sequence). -/
def nextKey (seed counter : ℕ) : ℕ × ℕ :=
  (seed * 2654435761 + counter, counter + 1)

/-- Embeds ActorCritic.update (agent.py lines 109-119): append the
transition, and when the buffer is full or the new timestep is terminal,
drain and do one SGD step replacing the Training State.  The returned
natural number is a ghost count of learning steps performed during the
call.  `sgd_step` is the (externally differentiated) SGD step. -/
def ActorCritic.update
    (sgd_step : TrainingState → Trajectory → TrainingState)
    (a : Agent) (timestep : TimeStep) (action : ℕ)
    (new_timestep : TimeStep) : Agent × ℕ :=
  let b := a.buffer.append timestep action new_timestep
  if b.full ∨ new_timestep.isLast then
    let (trajectory, b2) := b.drain
    ({ a with buffer := b2, state := sgd_step a.state trajectory }, 1)
  else
    ({ a with buffer := b }, 0)

/-- The type of the external rlax.td_lambda primitive as consumed by the
loss: arguments v_tm1, r_t, discount_t, v_t, lambda, result the per-step
TD-lambda errors. -/
abbrev TdLambdaFn := List ℚ → List ℚ → List ℚ → List ℚ → ℚ → List ℚ

/-- The type of the external rlax.policy_gradient_loss primitive:
arguments logits_t, a_t, adv_t, w_t, result a scalar loss. -/
abbrev PgLossFn := List Logits → List ℕ → List ℚ → List ℚ → ℚ

/-- The external network contract: a pure function from a batch of
observations to per-element (logits, value) pairs. -/
abbrev Network := List Obs → List Logits × List ℚ

/-- Mean of a list of rationals (jnp.mean). -/
def listMean (l : List ℚ) : ℚ := l.sum / l.length

/-- Embeds line 62 of agent.py: the per-step discount vector passed to
rlax.td_lambda, `trajectory.discounts * discount` — the elementwise
product of the environment-reported discounts with the agent-level
discount factor. -/
def td_discount_t (discount : ℚ) (trajectory : Trajectory) : List ℚ :=
  trajectory.discounts.map (fun d => d * discount)

/-- Embeds lines 58-65 of agent.py: the TD-lambda errors computed inside
the loss, with v_tm1 = values[:-1], v_t = values[1:], the trajectory
rewards, and the composed discount vector. -/
def td_errors_of (tdl : TdLambdaFn) (network : Network) (discount td_lambda : ℚ)
    (trajectory : Trajectory) : List ℚ :=
  let values := (network trajectory.observations).2
  tdl values.dropLast trajectory.rewards (td_discount_t discount trajectory)
    (values.drop 1) td_lambda

/-- Embeds the loss closure of ActorCritic.__init__ (agent.py lines
56-73): critic loss is the mean squared TD error, actor loss is the
policy-gradient loss on logits[:-1] with the realized actions, the TD
errors as advantages and unit weights; the result is their sum. -/
def ActorCritic.loss (tdl : TdLambdaFn) (pgl : PgLossFn) (network : Network)
    (discount td_lambda : ℚ) (trajectory : Trajectory) : ℚ :=
  let logits := (network trajectory.observations).1
  let td_errors := td_errors_of tdl network discount td_lambda trajectory
  let critic_loss := listMean (td_errors.map (fun e => e ^ 2))
  let actor_loss := pgl logits.dropLast trajectory.actions td_errors
    (td_errors.map (fun _ => 1))
  actor_loss + critic_loss

/-- Formalisation of the specification's wording (spec section 4.2,
"Numeric semantics to preserve exactly"), for comparison with the
source-embedded `ActorCritic.loss`: total loss = actor loss + critic
loss with no weighting coefficient; critic loss = mean over time of
(TD error)²; actor loss = policy-gradient loss from the logits at
all-but-last timestep, the realized actions, the TD errors as
advantages, and a constant per-step weight of 1. -/
def loss_spec_formulation (tdl : TdLambdaFn) (pgl : PgLossFn) (network : Network)
    (discount td_lambda : ℚ) (trajectory : Trajectory) : ℚ :=
  let td_errors := td_errors_of tdl network discount td_lambda trajectory
  let actor_loss := pgl ((network trajectory.observations).1.dropLast)
    trajectory.actions td_errors (List.replicate td_errors.length 1)
  let critic_loss := listMean (td_errors.map (fun e => e ^ 2))
  actor_loss + critic_loss

/-- Embeds ActorCritic.select_action (agent.py lines 101-107): draw the
next key from the random sequence, batch the single observation,
evaluate the network forward pass under the current parameters, and
sample a discrete action from the categorical distribution over the
logits.  `categorical` is the external jax.random.categorical sampler,
a deterministic function of key and logits. -/
def ActorCritic.select_action (forward : Params → Network)
    (categorical : ℕ → Logits → ℕ) (a : Agent) (timestep : TimeStep) :
    ℕ × Agent :=
  let (key, counter) := nextKey a.rng_seed a.rng_counter
  let observation := [timestep.observation]
  let logits := ((forward a.state.params observation).1).headD []
  let action := categorical key logits
  (action, { a with rng_counter := counter })

/-- Runs a sequence of select_action calls, collecting the actions. -/
def runSelect (forward : Params → Network) (categorical : ℕ → Logits → ℕ)
    (a : Agent) : List TimeStep → List ℕ
  | [] => []
  | t :: ts =>
    let (action, a2) := ActorCritic.select_action forward categorical a t
    action :: runSelect forward categorical a2 ts

/-- Embeds line 90 of agent.py: the zero-valued dummy batched
observation of shape (1, *obs_spec.shape) — a batch holding one
observation of `obsSize` zeros. -/
def dummy_observation (obsSize : ℕ) : List Obs :=
  [List.replicate obsSize 0]

/-- Embeds the initialization part of ActorCritic.__init__ (agent.py
lines 88-99): initial parameters from exactly one call of the network
initializer on the next rng key and the dummy observation, optimizer
state from those parameters, the Training State as their pair, and an
empty buffer of the declared sequence length.  `init` is the external
transformed-network initializer and `opt_init` the external
optimizer.init. -/
def ActorCritic.mk (init : ℕ → List Obs → Params) (opt_init : Params → OptState)
    (obsSize sequence_length : ℕ) (rng_seed rng_counter : ℕ) : Agent :=
  let (key, counter) := nextKey rng_seed rng_counter
  let initial_params := init key (dummy_observation obsSize)
  let initial_opt_state := opt_init initial_params
  { state := ⟨initial_params, initial_opt_state⟩
    buffer := ⟨sequence_length, [], [], [], [], []⟩
    rng_seed := rng_seed
    rng_counter := counter }

/-- Observable driver events, in program order, for run.py: construction
of the environment and agent, the experiment loop, console prints, and a
fatal ValueError. -/
inductive DriverEvent where
  | printMsg (msg : String)
  | constructEnv (bsuite_id : String)
  | constructAgent
  | runExperiment (num_episodes : ℤ)
  | raiseValueError (msg : String)
deriving DecidableEq, Repr

/-- Python truthiness of `x or y` for an optional-integer `x` (run.py
line 64 / 98: `FLAGS.num_episodes or getattr(env, ...)`): None and 0 are
falsy, so either yields `y`; any nonzero integer yields itself. -/
def pyOrInt (x : Option ℤ) (y : ℤ) : ℤ :=
  match x with
  | none => y
  | some n => if n = 0 then y else n

/-- Embeds run / run_with_wandb_logging (run.py lines 51-103) as the
event trace of one experiment run: load the environment, build the
default agent, then run the experiment loop for
`FLAGS.num_episodes or env.bsuite_num_episodes` episodes.  The two
logging variants produce the same trace shape. -/
def runEvents (flags_num_episodes : Option ℤ) (bsuite_num_episodes : ℤ)
    (bsuite_id : String) : List DriverEvent :=
  [DriverEvent.constructEnv bsuite_id,
   DriverEvent.constructAgent,
   DriverEvent.runExperiment (pyOrInt flags_num_episodes bsuite_num_episodes)]

/-- Embeds main (run.py lines 106-124) as an event trace.  `sweepSWEEP`
embeds the registry `sweep.SWEEP` of single experiment ids;
`sweepModuleAttrs` embeds the named sweeps reachable via
`hasattr(sweep, bsuite_id)` / `getattr` as an association list. -/
def driverMain (sweepSWEEP : List String)
    (sweepModuleAttrs : List (String × List String))
    (flags_num_episodes : Option ℤ) (bsuite_num_episodes : ℤ)
    (bsuite_id : String) : List DriverEvent :=
  if bsuite_id ∈ sweepSWEEP then
    DriverEvent.printMsg ("Running single experiment: bsuite_id=" ++ bsuite_id ++ ".")
      :: runEvents flags_num_episodes bsuite_num_episodes bsuite_id
  else
    match sweepModuleAttrs.lookup bsuite_id with
    | some sweep_ids =>
      DriverEvent.printMsg "Running sweep over bsuite_id"
        :: sweep_ids.flatMap (runEvents flags_num_episodes bsuite_num_episodes)
    | none =>
      [DriverEvent.raiseValueError ("Invalid flag: bsuite_id=" ++ bsuite_id ++ ".")]

/-- Embeds SAFE_SEPARATOR from wandb_logging.py. -/
def SAFE_SEPARATOR : String := "-"

/-- Embeds INITIAL_SEPARATOR from wandb_logging.py. -/
def INITIAL_SEPARATOR : String := "_-_"

/-- Embeds the BSUITE_PREFIX constant of wandb_logging.py:
the fixed tag prepended to the sanitized identifier. -/
def BSUITE_TAG : String := "bsuite_id" ++ INITIAL_SEPARATOR

/-- Modelled from the spec: `sweep.SEPARATOR`, the reserved path
separator inside bsuite identifiers (the bsuite.sweep module is not part
of this repository snapshot); the source comment calls it "the default
slash symbol". -/
def SWEEP_SEPARATOR : String := "/"

/-- Python str.replace as used on line 67 of wandb_logging.py, where the
pattern is the single-character reserved separator: every occurrence of
that character is replaced by the replacement string. -/
def pyReplace (s : String) (pattern replacement : String) : String :=
  String.mk (s.data.foldr
    (fun c acc =>
      if String.singleton c = pattern then replacement.data ++ acc else c :: acc)
    [])

/-- The keyword arguments actually passed to wandb.init by
WandbLogger.__init__ (wandb_logging.py lines 71-72).  `name` records the
run-name argument; wandb.init defaults it to None when not supplied. -/
structure WandbInitArgs where
  project : String
  entity : String
  group : String
  tags : List String
  reinit : Bool
  name : Option String
deriving DecidableEq, Repr

/-- The observable result of constructing a WandbLogger: the local
`experiment_name` computed on lines 67-68, and the single wandb.init
call issued on lines 71-72. -/
structure WandbLogger where
  experiment_name : String
  initCall : WandbInitArgs
deriving DecidableEq, Repr

/-- Embeds WandbLogger.__init__ (wandb_logging.py lines 56-72): the
sanitized identifier replaces the reserved separator with the safe one,
the experiment name prefixes it with the fixed tag, and wandb.init is
called with project/entity/group/tags/reinit — and no name argument,
so its `name` keyword keeps the default None. -/
def WandbLogger.init (bsuite_id project_name project_entity project_group : String)
    (project_tags : List String) (overwrite : Bool) : WandbLogger :=
  let safe_bsuite_id := pyReplace bsuite_id SWEEP_SEPARATOR SAFE_SEPARATOR
  let experiment_name := BSUITE_TAG ++ safe_bsuite_id
  { experiment_name := experiment_name
    initCall :=
      { project := project_name
        entity := project_entity
        group := project_group
        tags := project_tags
        reinit := overwrite
        name := none } }

/-- Embeds WandbLogger.write (wandb_logging.py lines 74-77) as the list
of wandb.log calls it issues: exactly one, forwarding the data. -/
def WandbLogger.write (data : List (String × ℚ)) : List (List (String × ℚ)) :=
  [data]

lemma map_one_eq_replicate (l : List ℚ) :
    l.map (fun _ => (1 : ℚ)) = List.replicate l.length 1 := by
  induction l with
  | nil => rfl
  | cons a l ih => simp [ih, List.replicate]

/-- Claim C1: every call to update appends the transition to the buffer,
and exactly one learning step (drain followed by one SGD step replacing
the Training State) occurs if and only if the buffer is full after the
append or the new timestep is terminal; on every other call zero
learning steps occur and the Training State is unchanged. -/
theorem update_one_learning_step_iff
    (sgd_step : TrainingState → Trajectory → TrainingState) (a : Agent)
    (timestep : TimeStep) (action : ℕ) (new_timestep : TimeStep) :
    ((ActorCritic.update sgd_step a timestep action new_timestep).2 = 1
      ↔ ((a.buffer.append timestep action new_timestep).full
          ∨ new_timestep.isLast))
    ∧ (((a.buffer.append timestep action new_timestep).full
          ∨ new_timestep.isLast) →
        (ActorCritic.update sgd_step a timestep action new_timestep).1.buffer
            = ((a.buffer.append timestep action new_timestep).drain).2
          ∧ (ActorCritic.update sgd_step a timestep action new_timestep).1.state
            = sgd_step a.state
                ((a.buffer.append timestep action new_timestep).drain).1
          ∧ (ActorCritic.update sgd_step a timestep action new_timestep).2 = 1)
    ∧ (¬ ((a.buffer.append timestep action new_timestep).full
          ∨ new_timestep.isLast) →
        (ActorCritic.update sgd_step a timestep action new_timestep).1.buffer
            = a.buffer.append timestep action new_timestep
          ∧ (ActorCritic.update sgd_step a timestep action new_timestep).1.state
            = a.state
          ∧ (ActorCritic.update sgd_step a timestep action new_timestep).2 = 0) := by
  by_cases h : (a.buffer.append timestep action new_timestep).full
      ∨ new_timestep.isLast
  · refine ⟨?_, fun _ => ?_, fun hc => absurd h hc⟩ <;>
      simp [ActorCritic.update, Buffer.drain, h]
  · refine ⟨?_, fun hc => absurd hc h, fun _ => ?_⟩ <;>
      simp [ActorCritic.update, h]

/-- Witness for C1: on a terminal timestep, the update performs exactly
one learning step and the Training State is replaced by the SGD step
result. -/
theorem update_one_learning_step_iff_witness :
    (ActorCritic.update (fun _ _ => ⟨[5], [6]⟩)
        ⟨⟨[], []⟩, ⟨4, [], [], [], [], []⟩, 0, 0⟩
        ⟨StepType.MID, 0, 1, [2]⟩ 1 ⟨StepType.LAST, 1, 0, [3]⟩).2 = 1
    ∧ (ActorCritic.update (fun _ _ => ⟨[5], [6]⟩)
        ⟨⟨[], []⟩, ⟨4, [], [], [], [], []⟩, 0, 0⟩
        ⟨StepType.MID, 0, 1, [2]⟩ 1 ⟨StepType.LAST, 1, 0, [3]⟩).1.state
      = ⟨[5], [6]⟩ := by
  have h := update_one_learning_step_iff (fun _ _ => ⟨[5], [6]⟩)
    ⟨⟨[], []⟩, ⟨4, [], [], [], [], []⟩, 0, 0⟩
    ⟨StepType.MID, 0, 1, [2]⟩ 1 ⟨StepType.LAST, 1, 0, [3]⟩
  have hc : ((⟨4, [], [], [], [], []⟩ : Buffer).append
      ⟨StepType.MID, 0, 1, [2]⟩ 1 ⟨StepType.LAST, 1, 0, [3]⟩).full
      ∨ (⟨StepType.LAST, 1, 0, [3]⟩ : TimeStep).isLast := by
    right; decide
  exact ⟨(h.2.1 hc).2.2, (h.2.1 hc).2.1⟩

/-- Claim C2: the per-step discount vector supplied to the TD-lambda
computation is the elementwise product of the trajectory's
environment-reported discounts with the agent-level discount factor,
never the environment discounts alone; with environment discounts all 1
and gamma = 0.99 the TD computation receives 0.99 per step. -/
theorem td_discount_composition (tdl : TdLambdaFn) (network : Network)
    (discount td_lambda : ℚ) (trajectory : Trajectory) :
    (td_errors_of tdl network discount td_lambda trajectory
      = tdl ((network trajectory.observations).2.dropLast) trajectory.rewards
          (trajectory.discounts.map (fun d => d * discount))
          ((network trajectory.observations).2.drop 1) td_lambda)
    ∧ (∀ n : ℕ,
        td_discount_t (99/100)
          { trajectory with discounts := List.replicate n 1 }
          = List.replicate n (99/100))
    ∧ (99/100 : ℚ) ≠ 1 := by
  refine ⟨rfl, fun n => ?_, by norm_num⟩
  simp [td_discount_t, List.map_replicate]

/-- Claim C3: the loss used for the learning step equals
actor loss + critic loss with no weighting coefficient, where the
critic loss is the mean over time of the squared TD-lambda error and
the actor loss is the policy-gradient loss of the logits at all but the
last timestep, the realized actions, the TD errors as advantages, and a
constant per-step weight of 1. -/
theorem loss_is_actor_plus_critic (tdl : TdLambdaFn) (pgl : PgLossFn)
    (network : Network) (discount td_lambda : ℚ) (trajectory : Trajectory) :
    ActorCritic.loss tdl pgl network discount td_lambda trajectory
      = loss_spec_formulation tdl pgl network discount td_lambda trajectory := by
  simp only [ActorCritic.loss, loss_spec_formulation, map_one_eq_replicate]

/-- Claim C5: select_action on a single unbatched observation returns a
discrete action index (the categorical draw on the forward-pass logits),
leaves the Training State and the buffer contents unchanged, and the
only agent state mutated is the pseudo-random sequence, which advances
by one draw. -/
theorem select_action_frame (forward : Params → Network)
    (categorical : ℕ → Logits → ℕ) (a : Agent) (timestep : TimeStep) :
    (ActorCritic.select_action forward categorical a timestep).2.state = a.state
    ∧ (ActorCritic.select_action forward categorical a timestep).2.buffer
        = a.buffer
    ∧ (ActorCritic.select_action forward categorical a timestep).2.rng_seed
        = a.rng_seed
    ∧ (ActorCritic.select_action forward categorical a timestep).2.rng_counter
        = a.rng_counter + 1
    ∧ (ActorCritic.select_action forward categorical a timestep).1
        = categorical (nextKey a.rng_seed a.rng_counter).1
            (((forward a.state.params [timestep.observation]).1).headD []) :=
  ⟨rfl, rfl, rfl, rfl, rfl⟩

/-- Claim C6: with a fixed random seed, two runs of the same sequence of
select_action calls on an unchanged Training State and identical
observation inputs produce identical action sequences. -/
theorem select_action_deterministic (forward : Params → Network)
    (categorical : ℕ → Logits → ℕ) (a1 a2 : Agent)
    (timesteps : List TimeStep)
    (hseed : a1.rng_seed = a2.rng_seed)
    (hcounter : a1.rng_counter = a2.rng_counter)
    (hstate : a1.state = a2.state) :
    runSelect forward categorical a1 timesteps
      = runSelect forward categorical a2 timesteps := by
  induction timesteps generalizing a1 a2 with
  | nil => rfl
  | cons t ts ih =>
    simp only [runSelect, ActorCritic.select_action, nextKey, hseed, hcounter,
      hstate]
    refine congrArg₂ List.cons rfl (ih _ _ ?_ ?_ ?_) <;>
      simp [hseed, hcounter, hstate]

/-- Witness for C6: two agents sharing seed, counter and Training State
but holding different buffers produce the same actions on a concrete
two-step observation sequence. -/
theorem select_action_deterministic_witness :
    ((⟨⟨[2], [3]⟩, ⟨4, [], [], [], [], []⟩, 7, 0⟩ : Agent).rng_seed
        = (⟨⟨[2], [3]⟩, ⟨4, [1], [[5]], [0], [1], [1]⟩, 7, 0⟩ : Agent).rng_seed)
    ∧ ((⟨⟨[2], [3]⟩, ⟨4, [], [], [], [], []⟩, 7, 0⟩ : Agent).rng_counter
        = (⟨⟨[2], [3]⟩, ⟨4, [1], [[5]], [0], [1], [1]⟩, 7, 0⟩ : Agent).rng_counter)
    ∧ ((⟨⟨[2], [3]⟩, ⟨4, [], [], [], [], []⟩, 7, 0⟩ : Agent).state
        = (⟨⟨[2], [3]⟩, ⟨4, [1], [[5]], [0], [1], [1]⟩, 7, 0⟩ : Agent).state)
    ∧ runSelect (fun p obs => ([p ++ obs.headD []], []))
        (fun k l => k + l.length)
        ⟨⟨[2], [3]⟩, ⟨4, [], [], [], [], []⟩, 7, 0⟩
        [⟨StepType.FIRST, 0, 1, [9]⟩, ⟨StepType.MID, 0, 1, [8]⟩]
      = runSelect (fun p obs => ([p ++ obs.headD []], []))
        (fun k l => k + l.length)
        ⟨⟨[2], [3]⟩, ⟨4, [1], [[5]], [0], [1], [1]⟩, 7, 0⟩
        [⟨StepType.FIRST, 0, 1, [9]⟩, ⟨StepType.MID, 0, 1, [8]⟩] :=
  ⟨rfl, rfl, rfl,
    select_action_deterministic (fun p obs => ([p ++ obs.headD []], []))
      (fun k l => k + l.length)
      ⟨⟨[2], [3]⟩, ⟨4, [], [], [], [], []⟩, 7, 0⟩
      ⟨⟨[2], [3]⟩, ⟨4, [1], [[5]], [0], [1], [1]⟩, 7, 0⟩
      [⟨StepType.FIRST, 0, 1, [9]⟩, ⟨StepType.MID, 0, 1, [8]⟩] rfl rfl rfl⟩

/-- Claim C7: at construction the network parameters come from exactly
one initializer call on the zero-valued dummy batched observation with
the first key of the supplied random sequence, the optimizer state is
created from those parameters, the initial Training State is their
pair, and the random sequence advances by exactly one draw. -/
theorem init_training_state (init : ℕ → List Obs → Params)
    (opt_init : Params → OptState)
    (obsSize sequence_length rng_seed rng_counter : ℕ) :
    (ActorCritic.mk init opt_init obsSize sequence_length rng_seed
        rng_counter).state
      = ⟨init (nextKey rng_seed rng_counter).1 (dummy_observation obsSize),
         opt_init (init (nextKey rng_seed rng_counter).1
           (dummy_observation obsSize))⟩
    ∧ dummy_observation obsSize = [List.replicate obsSize 0]
    ∧ (ActorCritic.mk init opt_init obsSize sequence_length rng_seed
        rng_counter).rng_seed = rng_seed
    ∧ (ActorCritic.mk init opt_init obsSize sequence_length rng_seed
        rng_counter).rng_counter = rng_counter + 1 :=
  ⟨rfl, rfl, rfl, rfl⟩

/-- Claim C8: for every well-formed buffer with cursor c, drain returns
a Trajectory with c+1 observations and c actions/rewards/discounts,
resets the cursor to zero, and carries the most recent observation
forward as the first observation of the next segment; drain is total,
callable whether or not the buffer is full. -/
theorem drain_shape_and_reset (b : Buffer) (h : b.WF) :
    (b.drain).1.observations.length = b.cursor + 1
    ∧ (b.drain).1.actions.length = b.cursor
    ∧ (b.drain).1.rewards.length = b.cursor
    ∧ (b.drain).1.discounts.length = b.cursor
    ∧ (b.drain).2.cursor = 0
    ∧ (b.drain).2.firstObs = (b.drain).1.observations.getLastD [] := by
  obtain ⟨h1, h2, h3⟩ := h
  refine ⟨?_, rfl, ?_, ?_, rfl, ?_⟩
  · simp [Buffer.drain, Buffer.cursor, h1]
  · simp [Buffer.drain, Buffer.cursor, h2]
  · simp [Buffer.drain, Buffer.cursor, h3]
  · show b.succObs.getLastD b.firstObs
        = (b.firstObs :: b.succObs).getLastD []
    rw [List.getLastD_cons]

/-- Witness for C8: a concrete well-formed buffer with two recorded
transitions drains to three observations and two per-step entries,
resets its cursor and carries the last observation forward. -/
theorem drain_shape_and_reset_witness :
    (⟨4, [0], [[1], [2]], [1, 0], [0, 1], [1, 1]⟩ : Buffer).WF
    ∧ ((⟨4, [0], [[1], [2]], [1, 0], [0, 1], [1, 1]⟩ : Buffer).drain).1.observations.length
        = (⟨4, [0], [[1], [2]], [1, 0], [0, 1], [1, 1]⟩ : Buffer).cursor + 1
    ∧ ((⟨4, [0], [[1], [2]], [1, 0], [0, 1], [1, 1]⟩ : Buffer).drain).2.cursor = 0
    ∧ ((⟨4, [0], [[1], [2]], [1, 0], [0, 1], [1, 1]⟩ : Buffer).drain).2.firstObs
        = ((⟨4, [0], [[1], [2]], [1, 0], [0, 1], [1, 1]⟩ : Buffer).drain).1.observations.getLastD [] :=
  ⟨by decide,
   (drain_shape_and_reset _ (by decide)).1,
   (drain_shape_and_reset _ (by decide)).2.2.2.2.1,
   (drain_shape_and_reset _ (by decide)).2.2.2.2.2⟩

/-- Claim C9: when the experiment identifier is in no registry (neither
a registered single-experiment id nor the name of a registered sweep),
the driver's trace is exactly one fatal ValueError: no environment and
no agent is ever constructed. -/
theorem driver_unknown_id_fails_fast (sweepSWEEP : List String)
    (sweepModuleAttrs : List (String × List String))
    (flags_num_episodes : Option ℤ) (bsuite_num_episodes : ℤ)
    (bsuite_id : String)
    (h1 : bsuite_id ∉ sweepSWEEP)
    (h2 : sweepModuleAttrs.lookup bsuite_id = none) :
    driverMain sweepSWEEP sweepModuleAttrs flags_num_episodes
        bsuite_num_episodes bsuite_id
      = [DriverEvent.raiseValueError
          ("Invalid flag: bsuite_id=" ++ bsuite_id ++ ".")]
    ∧ (∀ s, DriverEvent.constructEnv s
        ∉ driverMain sweepSWEEP sweepModuleAttrs flags_num_episodes
            bsuite_num_episodes bsuite_id)
    ∧ DriverEvent.constructAgent
        ∉ driverMain sweepSWEEP sweepModuleAttrs flags_num_episodes
            bsuite_num_episodes bsuite_id := by
  have he : driverMain sweepSWEEP sweepModuleAttrs flags_num_episodes
      bsuite_num_episodes bsuite_id
      = [DriverEvent.raiseValueError
          ("Invalid flag: bsuite_id=" ++ bsuite_id ++ ".")] := by
    simp [driverMain, h1, h2]
  refine ⟨he, fun s => ?_, ?_⟩ <;> simp [he]

/-- Witness for C9: the identifier "foo" is absent from a concrete
SWEEP registry and sweep attribute table, and the driver trace is the
single ValueError event. -/
theorem driver_unknown_id_fails_fast_witness :
    ("foo" ∉ (["catch/0", "bandit/0"] : List String))
    ∧ (List.lookup "foo" [("CATCH", ["catch/0"])] = none)
    ∧ driverMain ["catch/0", "bandit/0"] [("CATCH", ["catch/0"])] none 10000 "foo"
        = [DriverEvent.raiseValueError "Invalid flag: bsuite_id=foo."] :=
  ⟨by decide, by decide,
   (driver_unknown_id_fails_fast ["catch/0", "bandit/0"] [("CATCH", ["catch/0"])]
      none 10000 "foo" (by decide) (by decide)).1.trans (by decide)⟩

/-- Claim C10: the episode-count override takes effect only when it is a
nonzero, non-None value; when it is None or 0 the environment's
bsuite_num_episodes attribute is used instead (an override of 0 is
silently ignored rather than running zero episodes). -/
theorem num_episodes_override (bsuite_num_episodes : ℤ) (bsuite_id : String)
    (n : ℤ) (hn : n ≠ 0) :
    runEvents none bsuite_num_episodes bsuite_id
      = [DriverEvent.constructEnv bsuite_id, DriverEvent.constructAgent,
         DriverEvent.runExperiment bsuite_num_episodes]
    ∧ runEvents (some 0) bsuite_num_episodes bsuite_id
      = [DriverEvent.constructEnv bsuite_id, DriverEvent.constructAgent,
         DriverEvent.runExperiment bsuite_num_episodes]
    ∧ runEvents (some n) bsuite_num_episodes bsuite_id
      = [DriverEvent.constructEnv bsuite_id, DriverEvent.constructAgent,
         DriverEvent.runExperiment n] :=
  ⟨rfl, by simp [runEvents, pyOrInt], by simp [runEvents, pyOrInt, hn]⟩

/-- Witness for C10: a nonzero override of 7 runs 7 episodes even though
the environment declares 10000. -/
theorem num_episodes_override_witness :
    ((7 : ℤ) ≠ 0)
    ∧ runEvents (some 7) 10000 "catch/0"
      = [DriverEvent.constructEnv "catch/0", DriverEvent.constructAgent,
         DriverEvent.runExperiment 7] :=
  ⟨by decide,
   (num_episodes_override 10000 "catch/0" 7 (by decide)).2.2⟩

/-- Claim C4 evaluated on the code at the failing input "catch/0": the
sanitized, tag-prefixed experiment name is computed as
"bsuite_id_-_catch-0", but the wandb.init call receives no name
argument (its name keyword stays None), so the run is not keyed by the
constructed identifier; each write call still forwards its data exactly
once. -/
theorem wandb_run_name_dropped :
    (WandbLogger.init "catch/0" "rl-with-ts-obs" "bolling-adrien"
        "ts-bsuite" [] false).experiment_name = "bsuite_id_-_catch-0"
    ∧ (WandbLogger.init "catch/0" "rl-with-ts-obs" "bolling-adrien"
        "ts-bsuite" [] false).initCall.name = none
    ∧ (WandbLogger.init "catch/0" "rl-with-ts-obs" "bolling-adrien"
        "ts-bsuite" [] false).initCall
      = ⟨"rl-with-ts-obs", "bolling-adrien", "ts-bsuite", [], false, none⟩
    ∧ WandbLogger.write [("episode_return", 1)] = [[("episode_return", 1)]] :=
  ⟨by decide, rfl, rfl, rfl⟩

end BsuiteTsobs
